import Mathlib

/-!
Shallow embedding of the stock-charting pipeline in `src/api/index.py`
(Flask app: data fetcher → indicator calculator → chart composer → HTTP
handler `analyze`).

Modelling conventions:
* A pandas `DataFrame` is an association list of column names to symbolic
  column data (`ColData`), together with a row count.  Numeric indicator
  values are delegated by the code to the external `ta` library, so the
  column payloads are modelled as a free term algebra over the base
  columns: `ColData.sma c 10` stands for `SMAIndicator(c, window=10)
  .sma_indicator()`, etc.
* Column subscription `data['k']` raises `KeyError` in Python when the
  column is absent; here `DataFrame.get` returns `Except.error
  ("KeyError: " ++ k)`.  Column assignment `data['k'] = v` replaces an
  existing column in place or appends a new one at the end, matching
  pandas semantics; it is the state-passing rendering of the in-place
  mutation performed by the Python code.
* `yf.download` is an external effect; it is a parameter
  `dl : DownloadRequest → DownloadResult` of the fetcher, where
  `DownloadRequest` records exactly which call the code makes
  (date-bounded range vs. trailing window) and `DownloadResult` is either
  a returned raw frame or a raised exception.
* A plotly figure is modelled by the ordered list of traces added to it
  (`fig.add_trace` calls), each recording its kind, display name, the
  column data it plots, the subplot row, and the configured line colour.
  `fig.write_html(chart_path)` is modelled by returning the path in the
  `Chart` artifact; layout-only calls (`update_layout`, `update_yaxes`)
  add no traces and are not observable in any claim.
* Python truthiness of an optional form string (`if not ticker`,
  `if start_date and end_date`, `if error`) is `pyTruthy`: `None` and
  `""` are falsy, any other string is truthy.
-/

deriving instance DecidableEq for Except

/-- Symbolic column data: base fetched columns and the derived series the
code obtains from the `ta` indicator library. -/
inductive ColData where
  | base : String → ColData
  | sma : ColData → Nat → ColData
  | ema : ColData → Nat → ColData
  | rsi : ColData → Nat → ColData
  | macdLine : ColData → ColData
  | macdSignal : ColData → ColData
deriving DecidableEq, Repr

/-- A pandas data frame: row count plus named columns in order. -/
structure DataFrame where
  nrows : Nat
  cols : List (String × ColData)
deriving DecidableEq, Repr

/-- `data['k']` lookup on the column list; `KeyError` when absent. -/
def lookupCol : List (String × ColData) → String → Except String ColData
  | [], k => .error ("KeyError: " ++ k)
  | (k2, v) :: rest, k => if k2 = k then .ok v else lookupCol rest k

/-- `data['k'] = v`: replace an existing column in place, else append. -/
def setCol : List (String × ColData) → String → ColData → List (String × ColData)
  | [], k, v => [(k, v)]
  | (k2, v2) :: rest, k, v =>
      if k2 = k then (k, v) :: rest else (k2, v2) :: setCol rest k v

def DataFrame.get (df : DataFrame) (k : String) : Except String ColData :=
  lookupCol df.cols k

def DataFrame.set (df : DataFrame) (k : String) (v : ColData) : DataFrame :=
  ⟨df.nrows, setCol df.cols k v⟩

/-- The `yf.download` call made by `fetch_stock_data`: either an explicit
date-bounded range or a relative trailing window. -/
inductive DownloadRequest where
  | range : String → String → String → String → DownloadRequest
  | window : String → String → String → DownloadRequest
deriving DecidableEq, Repr

/-- A raw frame as returned by `yf.download`: date-indexed, so the date is
not yet a column (`reset_index` turns it into one). -/
structure RawFrame where
  nrows : Nat
  cols : List (String × ColData)
deriving DecidableEq, Repr

/-- What the external `yf.download` does: return a raw frame or raise. -/
inductive DownloadResult where
  | frame : RawFrame → DownloadResult
  | raise : String → DownloadResult

/-- `stock_data.reset_index(inplace=True)`: the datetime index becomes an
explicit leading `Date` column. -/
def reset_index (rf : RawFrame) : DataFrame :=
  ⟨rf.nrows, ("Date", ColData.base "Date") :: rf.cols⟩

/-- Python truthiness of an optional form string: `None` and `""` falsy. -/
def pyTruthy : Option String → Bool
  | none => false
  | some s => !(s == "")

/-- The download request `fetch_stock_data` issues: a date-bounded range
when `start_date and end_date` is truthy, else a `period` window
(src/api/index.py lines 20-23). -/
def fetchRequest (ticker : String) (start_date end_date : Option String)
    (period interval : String) : DownloadRequest :=
  if pyTruthy start_date && pyTruthy end_date then
    .range ticker (start_date.getD "") (end_date.getD "") interval
  else
    .window ticker period interval

/-- `fetch_stock_data` (src/api/index.py lines 18-30): download, reject an
empty frame, reset the index; any exception is caught and returned as the
second component.  Returns the Python pair `(stock_data, error)`. -/
def fetch_stock_data (dl : DownloadRequest → DownloadResult) (ticker : String)
    (start_date end_date : Option String) (period interval : String) :
    Option DataFrame × Option String :=
  match dl (fetchRequest ticker start_date end_date period interval) with
  | .raise e => (none, some e)
  | .frame rf =>
      if rf.nrows = 0 then
        (none, some "No data available for the given ticker.")
      else
        (some (reset_index rf), none)

/-- The body of the `try` block of `calculate_indicators`
(src/api/index.py lines 34-44): four membership-guarded column
assignments, each reading the current `Close` column. -/
def calcSteps (data : DataFrame) (indicators : List String) :
    Except String DataFrame :=
  (if "SMA_10" ∈ indicators then
      data.get "Close" >>= fun c =>
        pure (data.set "SMA_10" (ColData.sma c 10))
    else pure data) >>= fun d1 =>
  (if "EMA_20" ∈ indicators then
      d1.get "Close" >>= fun c =>
        pure (d1.set "EMA_20" (ColData.ema c 20))
    else pure d1) >>= fun d2 =>
  (if "RSI" ∈ indicators then
      d2.get "Close" >>= fun c =>
        pure (d2.set "RSI" (ColData.rsi c 14))
    else pure d2) >>= fun d3 =>
  (if "MACD" ∈ indicators then
      d3.get "Close" >>= fun c =>
        pure ((d3.set "MACD" (ColData.macdLine c)).set "MACD_signal"
          (ColData.macdSignal c))
    else pure d3)

/-- `calculate_indicators` (src/api/index.py lines 32-46): the steps above
with any exception wrapped into a `ValueError`. -/
def calculate_indicators (data : DataFrame) (indicators : List String) :
    Except String DataFrame :=
  match calcSteps data indicators with
  | .ok r => .ok r
  | .error e => .error ("Error calculating indicators: " ++ e)

/-- The kind of plotly trace added to the figure. -/
inductive TraceKind where
  | candlestick
  | scatter
  | bar
deriving DecidableEq, Repr

/-- One `fig.add_trace(...)` call: trace kind, display name, the x column,
the data columns plotted (OHLC for a candlestick, a single y series
otherwise), the subplot row, and the configured line colour (when the
trace sets `line=dict(color=...)`). -/
structure Trace where
  kind : TraceKind
  name : String
  x : ColData
  ys : List ColData
  row : Nat
  lineColor : Option String
deriving DecidableEq, Repr

/-- The chart artifact: the traces added in order, the path passed to
`fig.write_html`, and the theme passed to `update_layout`. -/
structure Chart where
  traces : List Trace
  path : String
  theme : String
deriving DecidableEq, Repr

/-- The price trace of panel 1, dispatched on `chart_type`
(src/api/index.py lines 60-74); an unrecognized chart type adds none. -/
def priceTraces (data : DataFrame) (chart_type line_color : String) :
    Except String (List Trace) :=
  if chart_type = "candlestick" then
    data.get "Date" >>= fun x =>
    data.get "Open" >>= fun o =>
    data.get "High" >>= fun h =>
    data.get "Low" >>= fun l =>
    data.get "Close" >>= fun c =>
    pure [⟨.candlestick, "Candlestick", x, [o, h, l, c], 1, none⟩]
  else if chart_type = "line" then
    data.get "Date" >>= fun x =>
    data.get "Close" >>= fun c =>
    pure [⟨.scatter, "Stock Price", x, [c], 1, some line_color⟩]
  else if chart_type = "bar" then
    data.get "Date" >>= fun x =>
    data.get "Close" >>= fun c =>
    pure [⟨.bar, "Stock Price", x, [c], 1, none⟩]
  else pure []

def sma10Traces (data : DataFrame) : Except String (List Trace) :=
  data.get "Date" >>= fun x =>
  data.get "SMA_10" >>= fun y =>
  pure [⟨.scatter, "10-Day SMA", x, [y], 1, some "orange"⟩]

def ema20Traces (data : DataFrame) : Except String (List Trace) :=
  data.get "Date" >>= fun x =>
  data.get "EMA_20" >>= fun y =>
  pure [⟨.scatter, "20-Day EMA", x, [y], 1, some "blue"⟩]

def sma50Traces (data : DataFrame) : Except String (List Trace) :=
  data.get "Date" >>= fun x =>
  data.get "SMA_50" >>= fun y =>
  pure [⟨.scatter, "50-Day SMA", x, [y], 1, some "green"⟩]

def sma200Traces (data : DataFrame) : Except String (List Trace) :=
  data.get "Date" >>= fun x =>
  data.get "SMA_200" >>= fun y =>
  pure [⟨.scatter, "200-Day SMA", x, [y], 1, some "red"⟩]

def rsiTraces (data : DataFrame) : Except String (List Trace) :=
  data.get "Date" >>= fun x =>
  data.get "RSI" >>= fun y =>
  pure [⟨.scatter, "RSI", x, [y], 3, some "purple"⟩]

def macdTraces (data : DataFrame) : Except String (List Trace) :=
  data.get "Date" >>= fun x =>
  data.get "MACD" >>= fun m =>
  data.get "MACD_signal" >>= fun s =>
  data.get "MACD_histogram" >>= fun hist =>
  pure [⟨.scatter, "MACD Line", x, [m], 2, some "red"⟩,
        ⟨.scatter, "MACD Signal", x, [s], 2, some "green"⟩,
        ⟨.bar, "MACD Histogram", x, [hist], 2, none⟩]

/-- The membership-guarded indicator traces (src/api/index.py lines
77-90), in source order: SMA overlays and RSI/MACD panel traces. -/
def indicatorTraces (data : DataFrame) (indicators : List String) :
    Except String (List Trace) :=
  (if "SMA_10" ∈ indicators then sma10Traces data else pure []) >>= fun t1 =>
  (if "EMA_20" ∈ indicators then ema20Traces data else pure []) >>= fun t2 =>
  (if "SMA_50" ∈ indicators then sma50Traces data else pure []) >>= fun t3 =>
  (if "SMA_200" ∈ indicators then sma200Traces data else pure []) >>= fun t4 =>
  (if "RSI" ∈ indicators then rsiTraces data else pure []) >>= fun t5 =>
  (if "MACD" ∈ indicators then macdTraces data else pure []) >>= fun t6 =>
  pure (t1 ++ t2 ++ t3 ++ t4 ++ t5 ++ t6)

/-- The volume bars added unconditionally to panel 1
(src/api/index.py lines 93-99). -/
def volumeTrace (data : DataFrame) : Except String Trace :=
  data.get "Date" >>= fun x =>
  data.get "Volume" >>= fun v =>
  pure ⟨.bar, "Volume", x, [v], 1, none⟩

/-- All traces of the figure in the order the code adds them:
price, indicators, volume. -/
def buildTraces (data : DataFrame) (chart_type : String)
    (indicators : List String) (line_color : String) :
    Except String (List Trace) :=
  priceTraces data chart_type line_color >>= fun p =>
  indicatorTraces data indicators >>= fun i =>
  volumeTrace data >>= fun v =>
  pure (p ++ i ++ [v])

/-- `generate_chart` (src/api/index.py lines 48-125): assemble the traces,
style the figure with the theme, write it to
`static/charts/{ticker}_chart.html` and return that path; any exception
is wrapped into a `ValueError`. -/
def generate_chart (data : DataFrame) (ticker chart_type : String)
    (indicators : List String) (line_color chart_theme : String) :
    Except String Chart :=
  match buildTraces data chart_type indicators line_color with
  | .error e => .error ("Error generating chart: " ++ e)
  | .ok traces =>
      .ok ⟨traces, "static/charts/" ++ ticker ++ "_chart.html", chart_theme⟩

/-- The multi-valued form of the `/analyze` endpoint: `request.form.get`
fields (absent vs. present string) and the `getlist` indicators field. -/
structure Form where
  ticker : Option String
  period : Option String
  interval : Option String
  start_date : Option String
  end_date : Option String
  chart_type : Option String
  line_color : Option String
  chart_theme : Option String
  indicators : List String
deriving Repr

/-- The JSON response of `analyze` with its HTTP status. -/
inductive Response where
  | failure : Nat → String → Response
  | success : String → Response
deriving DecidableEq, Repr

/-- The `analyze` handler (src/api/index.py lines 132-156), parametrized
over the three pipeline stages so that non-invocation claims are
expressible; `analyze` below ties it to the real stages.  The
`stock_data = none` with falsy error branch is unreachable for the real
fetcher (see `fetch_stock_data_exclusive`); Python would fail inside the
wrapped stages there, hence a 500. -/
def analyze_gen
    (fetchFn : String → Option String → Option String → String → String →
      Option DataFrame × Option String)
    (calcFn : DataFrame → List String → Except String DataFrame)
    (chartFn : DataFrame → String → String → List String → String →
      String → Except String Chart)
    (form : Form) : Response :=
  let period := form.period.getD "1mo"
  let interval := form.interval.getD "1d"
  let chart_type := form.chart_type.getD "candlestick"
  let line_color := form.line_color.getD "#ff6347"
  let chart_theme := form.chart_theme.getD "plotly_white"
  if !(pyTruthy form.ticker) then
    .failure 400 "Ticker symbol is required."
  else
    let t := form.ticker.getD ""
    match fetchFn t form.start_date form.end_date period interval with
    | (stock_data, err) =>
      if pyTruthy err then .failure 500 (err.getD "")
      else
        match stock_data with
        | none => .failure 500 "Error calculating indicators: NoneType"
        | some df =>
          match calcFn df form.indicators with
          | .error e => .failure 500 e
          | .ok df2 =>
            match chartFn df2 t chart_type form.indicators line_color
                chart_theme with
            | .error e => .failure 500 e
            | .ok chart => .success chart.path

/-- The `/analyze` route with the actual pipeline stages, parametrized
only by the external `yf.download` behaviour. -/
def analyze (dl : DownloadRequest → DownloadResult) (form : Form) :
    Response :=
  analyze_gen (fetch_stock_data dl) calculate_indicators generate_chart form

def sampleRaw : RawFrame :=
  ⟨30, [("Open", .base "Open"), ("High", .base "High"),
        ("Low", .base "Low"), ("Close", .base "Close"),
        ("Adj Close", .base "Adj Close"), ("Volume", .base "Volume")]⟩

/-- The fetched frame after `reset_index`. -/
def sampleFetched : DataFrame := reset_index sampleRaw

def sampleForm : Form :=
  ⟨some "AAPL", none, none, none, none, some "line", none, none, []⟩

/-- The four indicator identifiers `calculate_indicators` recognizes. -/
def recognizedIndicators : List String := ["SMA_10", "EMA_20", "RSI", "MACD"]

/-- The columns `calculate_indicators` can write. -/
def derivedColumns : List String :=
  ["SMA_10", "EMA_20", "RSI", "MACD", "MACD_signal"]

/-- A trace is the panel-1 price representation iff it carries one of the
two names the price branch uses. -/
def isPriceTrace (tr : Trace) : Bool :=
  tr.name == "Candlestick" || tr.name == "Stock Price"

/-- The output frame has the same row count and the same columns as the
input outside the derived-column names. -/
def preservesCols (a b : DataFrame) : Prop :=
  b.nrows = a.nrows ∧ ∀ k, k ∉ derivedColumns → b.get k = a.get k

/-- The augmented frame `calculate_indicators` produces from
`sampleFetched` for the selection ["SMA_10", "MACD"]. -/
def sampleAugmented : DataFrame :=
  ⟨30, [("Date", .base "Date"), ("Open", .base "Open"),
        ("High", .base "High"), ("Low", .base "Low"),
        ("Close", .base "Close"), ("Adj Close", .base "Adj Close"),
        ("Volume", .base "Volume"),
        ("SMA_10", .sma (.base "Close") 10),
        ("MACD", .macdLine (.base "Close")),
        ("MACD_signal", .macdSignal (.base "Close"))]⟩

/-- The artifact of a line render of AAPL with no indicators. -/
def chartA : Chart :=
  ⟨[⟨.scatter, "Stock Price", .base "Date", [.base "Close"], 1,
      some "#ff6347"⟩,
    ⟨.bar, "Volume", .base "Date", [.base "Volume"], 1, none⟩],
   "static/charts/AAPL_chart.html", "plotly_white"⟩

/-- The artifact of a bar render of AAPL with the SMA_10 overlay. -/
def chartB : Chart :=
  ⟨[⟨.bar, "Stock Price", .base "Date", [.base "Close"], 1, none⟩,
    ⟨.scatter, "10-Day SMA", .base "Date", [.sma (.base "Close") 10], 1,
      some "orange"⟩,
    ⟨.bar, "Volume", .base "Date", [.base "Volume"], 1, none⟩],
   "static/charts/AAPL_chart.html", "plotly_dark"⟩

/-- The fetched frame augmented with the RSI column. -/
def sampleWithRSI : DataFrame :=
  ⟨30, [("Date", .base "Date"), ("Open", .base "Open"),
        ("High", .base "High"), ("Low", .base "Low"),
        ("Close", .base "Close"), ("Adj Close", .base "Adj Close"),
        ("Volume", .base "Volume"),
        ("RSI", .rsi (.base "Close") 14)]⟩

/-- The augmented frame produced by `calculate_indicators` for the
selection ["MACD"]: it gains `MACD` and `MACD_signal` but no
`MACD_histogram`. -/
def sampleMacdAugmented : DataFrame :=
  (sampleFetched.set "MACD" (.macdLine (.base "Close"))).set "MACD_signal"
    (.macdSignal (.base "Close"))

theorem bind_ok_iff {α β : Type} {x : Except String α}
    {f : α → Except String β} {b : β} :
    (x >>= f) = .ok b ↔ ∃ a, x = .ok a ∧ f a = .ok b := by
  cases x <;> simp [Bind.bind, Except.bind]

theorem lookup_set_ne (cols : List (String × ColData)) (k : String)
    (v : ColData) (k2 : String) (h : k ≠ k2) :
    lookupCol (setCol cols k v) k2 = lookupCol cols k2 := by
  induction cols with
  | nil => simp [setCol, lookupCol, h]
  | cons p rest ih =>
      obtain ⟨k3, v3⟩ := p
      by_cases h3 : k3 = k
      · subst h3
        simp [setCol, lookupCol, h]
      · by_cases h32 : k3 = k2
        · subst h32
          simp [setCol, lookupCol, h3]
        · simp [setCol, lookupCol, h3, h32, ih]

theorem preservesCols_refl (a : DataFrame) : preservesCols a a :=
  ⟨rfl, fun _ _ => rfl⟩

theorem preservesCols_trans {a b c : DataFrame} (h1 : preservesCols a b)
    (h2 : preservesCols b c) : preservesCols a c :=
  ⟨h2.1.trans h1.1, fun k hk => (h2.2 k hk).trans (h1.2 k hk)⟩

theorem set_preservesCols (d : DataFrame) (key : String) (v : ColData)
    (hkey : key ∈ derivedColumns) : preservesCols d (d.set key v) :=
  ⟨rfl, fun k hk =>
    lookup_set_ne d.cols key v k (fun e => hk (e ▸ hkey))⟩

theorem guardedSet_preserves (d dn : DataFrame) (c : Prop) [Decidable c]
    (key : String) (f : ColData → ColData) (hkey : key ∈ derivedColumns)
    (h : (if c then
        d.get "Close" >>= fun x => pure (d.set key (f x))
      else pure d) = .ok dn) :
    preservesCols d dn := by
  by_cases hc : c
  · rw [if_pos hc] at h
    rcases hget : d.get "Close" with e | cv <;> simp [hget, Bind.bind,
      Except.bind, pure, Except.pure] at h
    subst h
    exact set_preservesCols d key (f cv) hkey
  · rw [if_neg hc] at h
    simp [pure, Except.pure] at h
    subst h
    exact preservesCols_refl d

theorem macdStep_preserves (d dn : DataFrame) (c : Prop) [Decidable c]
    (h : (if c then
        d.get "Close" >>= fun x =>
          pure ((d.set "MACD" (ColData.macdLine x)).set "MACD_signal"
            (ColData.macdSignal x))
      else pure d) = .ok dn) :
    preservesCols d dn := by
  by_cases hc : c
  · rw [if_pos hc] at h
    rcases hget : d.get "Close" with e | cv <;> simp [hget, Bind.bind,
      Except.bind, pure, Except.pure] at h
    subst h
    exact preservesCols_trans
      (set_preservesCols d "MACD" (ColData.macdLine cv) (by decide))
      (set_preservesCols _ "MACD_signal" (ColData.macdSignal cv) (by decide))
  · rw [if_neg hc] at h
    simp [pure, Except.pure] at h
    subst h
    exact preservesCols_refl d

theorem calcSteps_preserves (data : DataFrame) (indicators : List String)
    (out : DataFrame) (h : calcSteps data indicators = .ok out) :
    preservesCols data out := by
  unfold calcSteps at h
  rw [bind_ok_iff] at h
  obtain ⟨d1, h1, h⟩ := h
  rw [bind_ok_iff] at h
  obtain ⟨d2, h2, h⟩ := h
  rw [bind_ok_iff] at h
  obtain ⟨d3, h3, h4⟩ := h
  exact preservesCols_trans
    (guardedSet_preserves data d1 _ "SMA_10" (fun x => ColData.sma x 10)
      (by decide) h1)
    (preservesCols_trans
      (guardedSet_preserves d1 d2 _ "EMA_20" (fun x => ColData.ema x 20)
        (by decide) h2)
      (preservesCols_trans
        (guardedSet_preserves d2 d3 _ "RSI" (fun x => ColData.rsi x 14)
          (by decide) h3)
        (macdStep_preserves d3 out _ h4)))

theorem calculate_indicators_ok_iff (data : DataFrame)
    (indicators : List String) (out : DataFrame) :
    calculate_indicators data indicators = .ok out ↔
      calcSteps data indicators = .ok out := by
  unfold calculate_indicators
  rcases hs : calcSteps data indicators with e | r <;> simp [hs]

/-- C10: `fetch_stock_data` is total (the `try`/`except` catches every
upstream exception) and always returns a pair with exactly one component
set: `(some frame, none)` on success, `(none, some message)` on any
failure — a raised download exception or an empty result. -/
theorem fetch_stock_data_exclusive (dl : DownloadRequest → DownloadResult)
    (ticker : String) (start_date end_date : Option String)
    (period interval : String) :
    (∃ df, fetch_stock_data dl ticker start_date end_date period interval =
      (some df, none)) ∨
    (∃ msg, fetch_stock_data dl ticker start_date end_date period interval =
      (none, some msg)) := by
  unfold fetch_stock_data
  rcases dl (fetchRequest ticker start_date end_date period interval) with
    rf | e
  · by_cases h : rf.nrows = 0 <;> simp [h]
  · simp

/-- C6: the download request `fetch_stock_data` issues is the explicit
date-bounded range exactly when both `start_date` and `end_date` are
provided (present and non-empty, Python truthiness), and otherwise the
relative trailing window of length `period`; both at the given
interval. -/
theorem fetch_request_shape (ticker : String)
    (start_date end_date : Option String) (period interval : String) :
    (pyTruthy start_date = true → pyTruthy end_date = true →
      fetchRequest ticker start_date end_date period interval =
        .range ticker (start_date.getD "") (end_date.getD "") interval) ∧
    (pyTruthy start_date = false ∨ pyTruthy end_date = false →
      fetchRequest ticker start_date end_date period interval =
        .window ticker period interval) := by
  constructor
  · intro hs he
    simp [fetchRequest, hs, he]
  · intro h
    rcases h with h | h <;> simp [fetchRequest, h]

theorem fetch_request_shape_witness :
    fetchRequest "AAPL" (some "2024-01-01") (some "2024-02-01") "1mo" "1d" =
      .range "AAPL" "2024-01-01" "2024-02-01" "1d" ∧
    fetchRequest "AAPL" none (some "2024-02-01") "1mo" "1d" =
      .window "AAPL" "1mo" "1d" :=
  ⟨(fetch_request_shape "AAPL" (some "2024-01-01") (some "2024-02-01")
      "1mo" "1d").1 (by decide) (by decide),
   (fetch_request_shape "AAPL" none (some "2024-02-01") "1mo" "1d").2
      (Or.inl (by decide))⟩

/-- C3: a missing or empty `ticker` field makes `analyze` answer HTTP 400
with exactly "Ticker symbol is required.", for every possible fetcher,
calculator and composer — in particular the fetcher is never consulted. -/
theorem analyze_missing_ticker
    (fetchFn : String → Option String → Option String → String → String →
      Option DataFrame × Option String)
    (calcFn : DataFrame → List String → Except String DataFrame)
    (chartFn : DataFrame → String → String → List String → String →
      String → Except String Chart)
    (form : Form) (h : pyTruthy form.ticker = false) :
    analyze_gen fetchFn calcFn chartFn form =
      .failure 400 "Ticker symbol is required." := by
  unfold analyze_gen
  simp [h]

theorem analyze_missing_ticker_witness :
    analyze_gen (fetch_stock_data (fun _ => .frame sampleRaw))
      calculate_indicators generate_chart
      { sampleForm with ticker := none } =
      .failure 400 "Ticker symbol is required." :=
  analyze_missing_ticker _ _ _ _ (by decide)

/-- C4: when the download for the request built from the form returns an
empty frame, `analyze` answers HTTP 500 with exactly "No data available
for the given ticker.", for every possible calculator and composer — in
particular neither downstream stage is consulted. -/
theorem analyze_empty_fetch (dl : DownloadRequest → DownloadResult)
    (calcFn : DataFrame → List String → Except String DataFrame)
    (chartFn : DataFrame → String → String → List String → String →
      String → Except String Chart)
    (form : Form) (rf : RawFrame)
    (ht : pyTruthy form.ticker = true)
    (hdl : dl (fetchRequest (form.ticker.getD "") form.start_date
      form.end_date (form.period.getD "1mo") (form.interval.getD "1d")) =
      .frame rf)
    (hempty : rf.nrows = 0) :
    analyze_gen (fetch_stock_data dl) calcFn chartFn form =
      .failure 500 "No data available for the given ticker." := by
  unfold analyze_gen fetch_stock_data
  simp [ht, hdl, hempty]
  decide

theorem analyze_empty_fetch_witness :
    analyze_gen (fetch_stock_data (fun _ => .frame ⟨0, []⟩))
      calculate_indicators generate_chart sampleForm =
      .failure 500 "No data available for the given ticker." :=
  analyze_empty_fetch _ _ _ _ ⟨0, []⟩ (by decide) rfl rfl

/-- C2: identifiers outside the vocabulary recognized by
`calculate_indicators` have no effect: the result only depends on the
recognized identifiers of the selection, and a selection containing none
of them returns the series unchanged with no error. -/
theorem calculate_indicators_unknown_ignored (data : DataFrame)
    (indicators : List String) :
    calculate_indicators data indicators =
      calculate_indicators data
        (indicators.filter (fun i => i ∈ recognizedIndicators)) ∧
    ((∀ i ∈ indicators, i ∉ recognizedIndicators) →
      calculate_indicators data indicators = .ok data) := by
  constructor
  · by_cases h1 : "SMA_10" ∈ indicators <;>
      by_cases h2 : "EMA_20" ∈ indicators <;>
      by_cases h3 : "RSI" ∈ indicators <;>
      by_cases h4 : "MACD" ∈ indicators <;>
      simp [calculate_indicators, calcSteps, h1, h2, h3, h4,
        List.mem_filter, recognizedIndicators]
  · intro h
    have h1 : "SMA_10" ∉ indicators := fun hm => h _ hm (by decide)
    have h2 : "EMA_20" ∉ indicators := fun hm => h _ hm (by decide)
    have h3 : "RSI" ∉ indicators := fun hm => h _ hm (by decide)
    have h4 : "MACD" ∉ indicators := fun hm => h _ hm (by decide)
    simp [calculate_indicators, calcSteps, h1, h2, h3, h4, pure,
      Except.pure, Bind.bind, Except.bind]

theorem calculate_indicators_unknown_ignored_witness :
    calculate_indicators sampleFetched ["BOLLINGER", "VWAP"] =
      .ok sampleFetched :=
  (calculate_indicators_unknown_ignored sampleFetched
    ["BOLLINGER", "VWAP"]).2 (by decide)

/-- C8: when `calculate_indicators` succeeds, the returned series is the
input series updated in place: same row count, every base OHLCV column
(Date, Open, High, Low, Close, Volume) intact, and any column that
differs from the input is one of the derived columns the calculator
writes. -/
theorem calculate_indicators_preserves_base (data : DataFrame)
    (indicators : List String) (out : DataFrame)
    (h : calculate_indicators data indicators = .ok out) :
    out.nrows = data.nrows ∧
    (∀ k, k ∈ ["Date", "Open", "High", "Low", "Close", "Volume"] →
      out.get k = data.get k) ∧
    (∀ k, out.get k ≠ data.get k → k ∈ derivedColumns) := by
  have hp := calcSteps_preserves data indicators out
    ((calculate_indicators_ok_iff data indicators out).mp h)
  refine ⟨hp.1, ?_, ?_⟩
  · intro k hk
    apply hp.2
    simp only [List.mem_cons, List.not_mem_nil, or_false] at hk
    rcases hk with rfl | rfl | rfl | rfl | rfl | rfl <;> decide
  · intro k hne
    by_contra hk
    exact hne (hp.2 k hk)

theorem calculate_indicators_preserves_base_witness :
    sampleAugmented.nrows = sampleFetched.nrows ∧
    (∀ k, k ∈ ["Date", "Open", "High", "Low", "Close", "Volume"] →
      sampleAugmented.get k = sampleFetched.get k) ∧
    (∀ k, sampleAugmented.get k ≠ sampleFetched.get k →
      k ∈ derivedColumns) :=
  calculate_indicators_preserves_base sampleFetched ["SMA_10", "MACD"]
    sampleAugmented (by decide)

/-- C5: a line chart with an empty indicator selection renders exactly
one price trace — a line of the configured colour over the Close column —
and one volume bar trace, both in panel 1, and nothing in the MACD and
RSI panels. -/
theorem line_chart_no_indicators (df : DataFrame) (ticker color theme : String)
    (x c v : ColData)
    (hx : df.get "Date" = .ok x) (hc : df.get "Close" = .ok c)
    (hv : df.get "Volume" = .ok v) :
    generate_chart df ticker "line" [] color theme =
      .ok ⟨[⟨.scatter, "Stock Price", x, [c], 1, some color⟩,
            ⟨.bar, "Volume", x, [v], 1, none⟩],
           "static/charts/" ++ ticker ++ "_chart.html", theme⟩ := by
  unfold generate_chart buildTraces priceTraces indicatorTraces volumeTrace
  simp [hx, hc, hv, Bind.bind, Except.bind, pure, Except.pure]

theorem line_chart_no_indicators_witness :
    generate_chart sampleFetched "AAPL" "line" [] "#ff6347" "plotly_white" =
      .ok ⟨[⟨.scatter, "Stock Price", .base "Date", [.base "Close"], 1,
              some "#ff6347"⟩,
            ⟨.bar, "Volume", .base "Date", [.base "Volume"], 1, none⟩],
           "static/charts/" ++ "AAPL" ++ "_chart.html", "plotly_white"⟩ :=
  line_chart_no_indicators sampleFetched "AAPL" "#ff6347" "plotly_white"
    (.base "Date") (.base "Close") (.base "Volume")
    (by decide) (by decide) (by decide)

theorem generate_chart_ok_path (df : DataFrame) (t ct lc th : String)
    (inds : List String) (ch : Chart)
    (h : generate_chart df t ct inds lc th = .ok ch) :
    ch.path = "static/charts/" ++ t ++ "_chart.html" := by
  unfold generate_chart at h
  rcases hb : buildTraces df ct inds lc with e | tr <;> rw [hb] at h
  · exact absurd h (by simp)
  · simp only [Except.ok.injEq] at h
    subst h
    rfl

/-- C7: the chart composer writes to a path derived from the ticker
alone: any two successful renders of the same ticker — whatever their
frames, chart types, selections, colours or themes — use the very same
artifact path, so the second write overwrites the first. -/
theorem chart_path_ticker_only (df df2 : DataFrame)
    (t ct ct2 lc lc2 th th2 : String) (inds inds2 : List String)
    (ch ch2 : Chart)
    (h1 : generate_chart df t ct inds lc th = .ok ch)
    (h2 : generate_chart df2 t ct2 inds2 lc2 th2 = .ok ch2) :
    ch.path = "static/charts/" ++ t ++ "_chart.html" ∧
    ch2.path = ch.path :=
  ⟨generate_chart_ok_path df t ct lc th inds ch h1,
   (generate_chart_ok_path df2 t ct2 lc2 th2 inds2 ch2 h2).trans
     (generate_chart_ok_path df t ct lc th inds ch h1).symm⟩

theorem chart_path_ticker_only_witness :
    chartA.path = "static/charts/" ++ "AAPL" ++ "_chart.html" ∧
    chartB.path = chartA.path :=
  chart_path_ticker_only sampleFetched sampleAugmented "AAPL" "line" "bar"
    "#ff6347" "blue" "plotly_white" "plotly_dark" [] ["SMA_10"]
    chartA chartB (by decide) (by decide)

theorem pairGet_ok (df : DataFrame) (k1 k2 : String)
    (mk : ColData → ColData → List Trace) (l : List Trace)
    (h : (df.get k1 >>= fun x => df.get k2 >>= fun y => pure (mk x y)) =
      .ok l) :
    ∃ x y, df.get k1 = .ok x ∧ df.get k2 = .ok y ∧ l = mk x y := by
  rw [bind_ok_iff] at h
  obtain ⟨x, hx, h⟩ := h
  rw [bind_ok_iff] at h
  obtain ⟨y, hy, h⟩ := h
  simp only [pure, Except.pure, Except.ok.injEq] at h
  exact ⟨x, y, hx, hy, h.symm⟩

theorem sma10Traces_not_price (df : DataFrame) (l : List Trace)
    (h : sma10Traces df = .ok l) : ∀ tr ∈ l, isPriceTrace tr = false := by
  unfold sma10Traces at h
  obtain ⟨x, y, _, _, rfl⟩ := pairGet_ok df "Date" "SMA_10" _ l h
  intro tr htr
  simp only [List.mem_singleton] at htr
  subst htr
  rfl

theorem ema20Traces_not_price (df : DataFrame) (l : List Trace)
    (h : ema20Traces df = .ok l) : ∀ tr ∈ l, isPriceTrace tr = false := by
  unfold ema20Traces at h
  obtain ⟨x, y, _, _, rfl⟩ := pairGet_ok df "Date" "EMA_20" _ l h
  intro tr htr
  simp only [List.mem_singleton] at htr
  subst htr
  rfl

theorem sma50Traces_not_price (df : DataFrame) (l : List Trace)
    (h : sma50Traces df = .ok l) : ∀ tr ∈ l, isPriceTrace tr = false := by
  unfold sma50Traces at h
  obtain ⟨x, y, _, _, rfl⟩ := pairGet_ok df "Date" "SMA_50" _ l h
  intro tr htr
  simp only [List.mem_singleton] at htr
  subst htr
  rfl

theorem sma200Traces_not_price (df : DataFrame) (l : List Trace)
    (h : sma200Traces df = .ok l) : ∀ tr ∈ l, isPriceTrace tr = false := by
  unfold sma200Traces at h
  obtain ⟨x, y, _, _, rfl⟩ := pairGet_ok df "Date" "SMA_200" _ l h
  intro tr htr
  simp only [List.mem_singleton] at htr
  subst htr
  rfl

theorem rsiTraces_not_price (df : DataFrame) (l : List Trace)
    (h : rsiTraces df = .ok l) : ∀ tr ∈ l, isPriceTrace tr = false := by
  unfold rsiTraces at h
  obtain ⟨x, y, _, _, rfl⟩ := pairGet_ok df "Date" "RSI" _ l h
  intro tr htr
  simp only [List.mem_singleton] at htr
  subst htr
  rfl

theorem macdTraces_not_price (df : DataFrame) (l : List Trace)
    (h : macdTraces df = .ok l) : ∀ tr ∈ l, isPriceTrace tr = false := by
  unfold macdTraces at h
  rw [bind_ok_iff] at h
  obtain ⟨x, hx, h⟩ := h
  rw [bind_ok_iff] at h
  obtain ⟨m, hm, h⟩ := h
  rw [bind_ok_iff] at h
  obtain ⟨s, hs, h⟩ := h
  rw [bind_ok_iff] at h
  obtain ⟨hg, hhist, h⟩ := h
  simp only [pure, Except.pure, Except.ok.injEq] at h
  subst h
  intro tr htr
  simp only [List.mem_cons, List.not_mem_nil, or_false] at htr
  rcases htr with rfl | rfl | rfl <;> rfl

theorem guarded_not_price (c : Prop) [Decidable c]
    (f : Except String (List Trace)) (l : List Trace)
    (hf : ∀ l2, f = .ok l2 → ∀ tr ∈ l2, isPriceTrace tr = false)
    (h : (if c then f else pure []) = .ok l) :
    ∀ tr ∈ l, isPriceTrace tr = false := by
  by_cases hc : c
  · rw [if_pos hc] at h
    exact hf l h
  · rw [if_neg hc] at h
    simp only [pure, Except.pure, Except.ok.injEq] at h
    subst h
    simp

theorem indicatorTraces_not_price (df : DataFrame) (inds : List String)
    (l : List Trace) (h : indicatorTraces df inds = .ok l) :
    ∀ tr ∈ l, isPriceTrace tr = false := by
  unfold indicatorTraces at h
  rw [bind_ok_iff] at h
  obtain ⟨t1, h1, h⟩ := h
  rw [bind_ok_iff] at h
  obtain ⟨t2, h2, h⟩ := h
  rw [bind_ok_iff] at h
  obtain ⟨t3, h3, h⟩ := h
  rw [bind_ok_iff] at h
  obtain ⟨t4, h4, h⟩ := h
  rw [bind_ok_iff] at h
  obtain ⟨t5, h5, h⟩ := h
  rw [bind_ok_iff] at h
  obtain ⟨t6, h6, h⟩ := h
  simp only [pure, Except.pure, Except.ok.injEq] at h
  subst h
  intro tr htr
  simp only [List.mem_append] at htr
  rcases htr with (((((htr | htr) | htr) | htr) | htr) | htr)
  · exact guarded_not_price _ _ _ (sma10Traces_not_price df) h1 tr htr
  · exact guarded_not_price _ _ _ (ema20Traces_not_price df) h2 tr htr
  · exact guarded_not_price _ _ _ (sma50Traces_not_price df) h3 tr htr
  · exact guarded_not_price _ _ _ (sma200Traces_not_price df) h4 tr htr
  · exact guarded_not_price _ _ _ (rsiTraces_not_price df) h5 tr htr
  · exact guarded_not_price _ _ _ (macdTraces_not_price df) h6 tr htr

theorem volumeTrace_ok (df : DataFrame) (vt : Trace)
    (h : volumeTrace df = .ok vt) :
    ∃ x v, df.get "Date" = .ok x ∧ df.get "Volume" = .ok v ∧
      vt = ⟨.bar, "Volume", x, [v], 1, none⟩ := by
  unfold volumeTrace at h
  rw [bind_ok_iff] at h
  obtain ⟨x, hx, h⟩ := h
  rw [bind_ok_iff] at h
  obtain ⟨v, hv, h⟩ := h
  simp only [pure, Except.pure, Except.ok.injEq] at h
  exact ⟨x, v, hx, hv, h.symm⟩

/-- C9 (amended): an unrecognized chart type skips every branch of the
price dispatch without raising; provided the columns read for the
selected indicators and the volume bars are present, the render returns
the ticker-derived artifact path with exactly the selected indicator
traces followed by the volume bars, none of which is a price trace. -/
theorem unknown_chart_type_falls_through (df : DataFrame)
    (t ct lc th : String) (inds : List String) (its : List Trace)
    (vt : Trace)
    (h1 : ct ≠ "candlestick") (h2 : ct ≠ "line") (h3 : ct ≠ "bar")
    (hi : indicatorTraces df inds = .ok its)
    (hv : volumeTrace df = .ok vt) :
    generate_chart df t ct inds lc th =
      .ok ⟨its ++ [vt], "static/charts/" ++ t ++ "_chart.html", th⟩ ∧
    ∀ tr ∈ its ++ [vt], isPriceTrace tr = false := by
  constructor
  · unfold generate_chart buildTraces priceTraces
    simp [h1, h2, h3, hi, hv, Bind.bind, Except.bind, pure, Except.pure]
  · intro tr htr
    rcases List.mem_append.mp htr with htr | htr
    · exact indicatorTraces_not_price df inds its hi tr htr
    · obtain ⟨x, v, _, _, hvt⟩ := volumeTrace_ok df vt hv
      simp only [List.mem_singleton] at htr
      subst htr
      rw [hvt]
      rfl

theorem unknown_chart_type_falls_through_witness :
    generate_chart sampleWithRSI "AAPL" "area" ["RSI"] "#ff6347"
      "plotly_white" =
      .ok ⟨[⟨.scatter, "RSI", .base "Date", [.rsi (.base "Close") 14], 3,
              some "purple"⟩] ++
           [⟨.bar, "Volume", .base "Date", [.base "Volume"], 1, none⟩],
           "static/charts/" ++ "AAPL" ++ "_chart.html", "plotly_white"⟩ ∧
    ∀ tr ∈ [⟨.scatter, "RSI", .base "Date", [.rsi (.base "Close") 14], 3,
              some "purple"⟩] ++
           [(⟨.bar, "Volume", .base "Date", [.base "Volume"], 1,
              none⟩ : Trace)],
      isPriceTrace tr = false :=
  unknown_chart_type_falls_through sampleWithRSI "AAPL" "area" "#ff6347"
    "plotly_white" ["RSI"]
    [⟨.scatter, "RSI", .base "Date", [.rsi (.base "Close") 14], 3,
      some "purple"⟩]
    ⟨.bar, "Volume", .base "Date", [.base "Volume"], 1, none⟩
    (by decide) (by decide) (by decide) (by decide) (by decide)

/-- C9 counterexample to the unamended claim: with the unrecognized chart
type "area" and MACD selected, the composer still raises the wrapped
`KeyError` on the series the pipeline itself produces for that selection,
instead of returning an artifact path. -/
theorem unknown_chart_type_can_error :
    generate_chart sampleMacdAugmented "AAPL" "area" ["MACD"] "#ff6347"
      "plotly_white" =
      .error "Error generating chart: KeyError: MACD_histogram" := by
  decide

/-- C1 (code bug): selecting MACD never yields the three panel-2 traces
on a series produced by the pipeline itself, because
`calculate_indicators` writes only `MACD` and `MACD_signal` while the
composer also reads `MACD_histogram`; the render therefore raises the
wrapped `KeyError` instead of adding the traces. -/
theorem macd_histogram_missing_from_pipeline :
    calculate_indicators sampleFetched ["MACD"] = .ok sampleMacdAugmented ∧
    generate_chart sampleMacdAugmented "AAPL" "candlestick" ["MACD"]
      "#ff6347" "plotly_white" =
      .error "Error generating chart: KeyError: MACD_histogram" := by
  decide
